import Mathlib

/-
  Formal model of the turn-based roguelike core:
  actions.py, input_handlers.py, components/fighter.py,
  components/consumable.py, components/inventory.py.
  Machine integers are modelled as Int (Python ints are unbounded),
  exceptions as Except / explicit outcome tags, and object state as
  explicit records threaded through each operation.
-/

/-- Modelled from the spec: utility.py is absent from src/. clamp(value, lo, hi)
restricts value to the interval [lo, hi]. The spec (sections 4.4 and 8) states
that the HistoryViewer cursor movement clamps into [0, log_length - 1]; given
the positional call clamp(0, cursor + adjust, log_length - 1) in
HistoryViewer.ev_keydown, that behaviour pins the evaluation order
min (max value lo) hi. On well-formed ranges (lo <= hi) this agrees with
every clamp-to-interval variant. -/
def clamp (value lo hi : Int) : Int := min (max value lo) hi

/-- Message styles from color.py (an external style table). -/
inductive MsgColor where
  | impossible
  | playerDie
  | enemyDie
  | playerAtk
  | enemyAtk
  | healthRecovered
  | invalid
  | plain
deriving DecidableEq, Repr

/-- render_order.RenderOrder. -/
inductive RenderOrder where
  | corpse
  | item
  | actor
deriving DecidableEq, Repr

/-- The result of Action.perform() as seen by the turn driver:
a normal return carrying the Python return value (None or a bool),
a raised exceptions.Impossible carrying its message, or a raised SystemExit. -/
inductive PerformResult where
  | ret (v : Option Bool)
  | impossible (msg : String)
  | sysExit
deriving DecidableEq, Repr

/-- Observable effects of the turn driver, in order of occurrence. -/
inductive Event where
  | logMsg (msg : String) (c : MsgColor)
  | enemyTurns
  | updateFov
deriving DecidableEq, Repr

/-- Python truthiness of an Optional[bool] value. -/
def pyTruthy : Option Bool → Bool
  | none => false
  | some b => b

/-- EventHandler.handle_action (src/input_handlers.py:74-94):
advance_turn = False; if action: try perform, catching only Impossible and
logging its message in the impossible style; then, if advance_turn is truthy,
handle_enemy_turns() followed by update_fov(). The function body has no return
statement, so its Python return value is None (second component).
A raised SystemExit is not caught and propagates (the error case). -/
def handleAction (action : Option PerformResult) : Except Unit (List Event × Option Bool) :=
  match action with
  | none => Except.ok ([], none)
  | some (PerformResult.ret v) =>
      if pyTruthy v then Except.ok ([Event.enemyTurns, Event.updateFov], none)
      else Except.ok ([], none)
  | some (PerformResult.impossible msg) =>
      Except.ok ([Event.logMsg msg MsgColor.impossible], none)
  | some PerformResult.sysExit => Except.error ()

/-- AskUserEventHandler.handle_action (src/input_handlers.py:127-134):
if super().handle_action(action) is truthy, replace the engine event handler
with MainGameEventHandler and return True, else return False.
Result components: (driver events, Python return value, handler replaced). -/
def askUserHandleAction (action : Option PerformResult) :
    Except Unit (List Event × Option Bool × Bool) :=
  match handleAction action with
  | Except.error e => Except.error e
  | Except.ok (events, ret) =>
      if pyTruthy ret then Except.ok (events, some true, true)
      else Except.ok (events, some false, false)

/-- An item as seen by PickupAction: identity, map position and name. -/
structure PItem where
  id : Nat
  x : Int
  y : Int
  name : String
deriving DecidableEq, Repr

/-- Remove the first occurrence of an item from a list
(list.remove on the map entity collection; the removed item is always
drawn from the list being traversed in PickupAction.perform). -/
def eraseFirstItem : List PItem → PItem → List PItem
  | [], _ => []
  | x :: xs, it => if x = it then xs else x :: eraseFirstItem xs it

/-- State touched by PickupAction.perform: the map item collection in scan
order, the acting entity inventory and capacity, whether the entity is the
player, the entity position and the message log. -/
structure PickupState where
  mapItems : List PItem
  invItems : List PItem
  capacity : Nat
  entityIsPlayer : Bool
  ex : Int
  ey : Int
  log : List String
deriving DecidableEq, Repr

/-- The loop body of PickupAction.perform (src/actions.py:76-104), iterating
over the map items: on the first item at the entity position, check capacity
(raise Impossible for the player, silently return for others), else remove the
item from the map, append it to the inventory, log for the player, and return.
Every return path is a bare return, so the Python return value is None. -/
def pickupGo (st : PickupState) : List PItem → Except String (Option Bool) × PickupState
  | [] => (Except.error ("There is nothing here to pick up."), st)
  | item :: rest =>
    if st.ex = item.x ∧ st.ey = item.y then
      if st.capacity ≤ st.invItems.length then
        if st.entityIsPlayer then (Except.error ("Your inventory is full."), st)
        else (Except.ok none, st)
      else
        (Except.ok none,
          { st with
            mapItems := eraseFirstItem st.mapItems item
            invItems := st.invItems ++ [item]
            log :=
              if st.entityIsPlayer then
                st.log ++ [("You picked up the " ++ item.name ++ "!")]
              else st.log })
    else pickupGo st rest

/-- PickupAction.perform (src/actions.py:76-104). -/
def pickupPerform (st : PickupState) : Except String (Option Bool) × PickupState :=
  pickupGo st st.mapItems

/-- Concrete pickup scenario: the player stands at (0,0) on one map item. -/
def c3State : PickupState :=
  { mapItems := [⟨0, 0, 0, "Potion"⟩]
    invItems := []
    capacity := 1
    entityIsPlayer := true
    ex := 0
    ey := 0
    log := [] }

/-- Claim C3: PickupAction.perform is declared -> None and returns a bare
return on success, so the successful pickup above returns None; the turn
driver then sees a falsy advance flag and runs neither the enemy sweep nor
the visibility recompute, contradicting the claim that a successful pickup
returns true and advances the game clock (the item transfer itself does
happen: the map empties, the item is appended to the inventory, and the
pickup message is logged). -/
theorem pickup_perform_returns_none_no_turn :
    pickupPerform c3State =
      (Except.ok none,
        { mapItems := []
          invItems := [⟨0, 0, 0, "Potion"⟩]
          capacity := 1
          entityIsPlayer := true
          ex := 0
          ey := 0
          log := [("You picked up the Potion!")] }) ∧
    handleAction (some (PerformResult.ret none)) = Except.ok ([], none) ∧
    (pickupPerform c3State).1 ≠ Except.ok (some true) := by
  refine ⟨rfl, rfl, fun h => Option.noConfusion (Except.ok.inj h)⟩

/-- Claim C1: the turn driver contract of EventHandler.handle_action.
An Impossible failure is logged with the impossible style and triggers
neither the enemy sweep nor the visibility recompute; SystemExit propagates
uncaught with no logging and no events; a perform returning True triggers
the enemy sweep and then the visibility recompute, in that order; a missing
action produces no events. -/
theorem handle_action_turn_driver (msg : String) :
    handleAction (some (PerformResult.impossible msg)) =
      Except.ok ([Event.logMsg msg MsgColor.impossible], none) ∧
    handleAction (some PerformResult.sysExit) = Except.error () ∧
    handleAction (some (PerformResult.ret (some true))) =
      Except.ok ([Event.enemyTurns, Event.updateFov], none) ∧
    handleAction none = Except.ok ([], none) := by
  refine ⟨rfl, rfl, rfl, rfl⟩

/-- Claim C7: because EventHandler.handle_action has no return statement
(it returns None despite its docstring), the AskUserEventHandler.handle_action
truthiness test never succeeds: even for an action whose perform() returned
True (the enemy sweep and visibility recompute do run), the handler-replaced
flag (third component) is false, so the active handler is never replaced by
MainGameEventHandler on turn advance. -/
theorem askuser_handle_action_never_returns_to_main :
    askUserHandleAction (some (PerformResult.ret (some true))) =
      Except.ok ([Event.enemyTurns, Event.updateFov], some false, false) := rfl

/-- The state reachable from a Fighter component
(src/components/fighter.py): the combat numbers, the fields of the owning
entity that Fighter.die mutates, and the engine state it touches (the
message log and the game-over handler swap). dieCount is a ghost counter
incremented exactly when die() runs, used to state how many times death
triggered. -/
structure FighterState where
  maxHp : Int
  hp : Int
  defense : Int
  power : Int
  entityHasAi : Bool
  entityBlocks : Bool
  entityName : String
  entityChar : String
  entityColor : Int × Int × Int
  entityIsPlayer : Bool
  renderOrder : RenderOrder
  handlerGameOver : Bool
  log : List (String × MsgColor)
  dieCount : Nat
deriving DecidableEq, Repr

/-- Fighter.die (src/components/fighter.py:39-58). -/
def FighterState.die (s : FighterState) : FighterState :=
  { s with
    entityChar := ("%")
    entityColor := (191, 0, 0)
    entityBlocks := false
    entityHasAi := false
    entityName := ("remains of " ++ s.entityName)
    renderOrder := RenderOrder.corpse
    handlerGameOver := if s.entityIsPlayer then true else s.handlerGameOver
    log := s.log ++
      [if s.entityIsPlayer then (("You died!"), MsgColor.playerDie)
       else ((s.entityName ++ " is dead!"), MsgColor.enemyDie)]
    dieCount := s.dieCount + 1 }

/-- The hp property setter (src/components/fighter.py:32-37):
clamp into [0, max_hp], then call die() when the stored hp is 0 and the
owning entity still has an AI. -/
def FighterState.hpSet (s : FighterState) (value : Int) : FighterState :=
  if clamp value 0 s.maxHp = 0 ∧ s.entityHasAi = true then
    { s with hp := clamp value 0 s.maxHp }.die
  else { s with hp := clamp value 0 s.maxHp }

/-- Fighter.take_damage (src/components/fighter.py:72-73): hp -= amount via
the clamped setter. -/
def FighterState.takeDamage (s : FighterState) (amount : Int) : FighterState :=
  s.hpSet (s.hp - amount)

/-- Fighter.heal (src/components/fighter.py:60-70): returns the updated state
and the amount recovered. -/
def FighterState.heal (s : FighterState) (amount : Int) : FighterState × Int :=
  if s.hp = s.maxHp then (s, 0)
  else
    (s.hpSet (min (s.hp + amount) s.maxHp), min (s.hp + amount) s.maxHp - s.hp)

theorem FighterState.die_hp (s : FighterState) : s.die.hp = s.hp := rfl

theorem FighterState.die_maxHp (s : FighterState) : s.die.maxHp = s.maxHp := rfl

theorem FighterState.hpSet_hp (s : FighterState) (value : Int) :
    (s.hpSet value).hp = clamp value 0 s.maxHp := by
  unfold FighterState.hpSet
  split
  · rfl
  · rfl

theorem FighterState.hpSet_maxHp (s : FighterState) (value : Int) :
    (s.hpSet value).maxHp = s.maxHp := by
  unfold FighterState.hpSet
  split
  · rfl
  · rfl

/-- Claim C2: the hp setter always clamps into [0, max_hp]; for an entity
with an AI, take_damage with damage at least the current hp leaves hp at 0,
triggers die() exactly once (the ghost counter increases by one) and clears
the AI, and a further take_damage 0 while at 0 hp does not trigger die()
again. -/
theorem fighter_hp_clamp_and_death_idempotent (s : FighterState) (v d : Int)
    (hmax : 0 ≤ s.maxHp) (hai : s.entityHasAi = true) (hd : s.hp ≤ d) :
    (0 ≤ (s.hpSet v).hp ∧ (s.hpSet v).hp ≤ s.maxHp) ∧
    (s.takeDamage d).hp = 0 ∧
    (s.takeDamage d).dieCount = s.dieCount + 1 ∧
    (s.takeDamage d).entityHasAi = false ∧
    ((s.takeDamage d).takeDamage 0).hp = 0 ∧
    ((s.takeDamage d).takeDamage 0).dieCount = s.dieCount + 1 := by
  have hclamp0 : clamp (s.hp - d) 0 s.maxHp = 0 := by
    unfold clamp
    omega
  have hstep : s.takeDamage d = { s with hp := 0 }.die := by
    unfold FighterState.takeDamage FighterState.hpSet
    rw [hclamp0, if_pos ⟨rfl, hai⟩]
  have hgen : ∀ t : FighterState, t.hp = 0 → 0 ≤ t.maxHp → t.entityHasAi = false →
      t.takeDamage 0 = { t with hp := 0 } := by
    intro t h1t h2t h3t
    have hc : clamp (t.hp - 0) 0 t.maxHp = 0 := by
      unfold clamp
      omega
    unfold FighterState.takeDamage FighterState.hpSet
    rw [hc, if_neg (fun hcon => Bool.false_ne_true (h3t ▸ hcon.2))]
  constructor
  · rw [FighterState.hpSet_hp]
    unfold clamp
    omega
  · have h1 : (s.takeDamage d).hp = 0 := by rw [hstep]; rfl
    have h2 : (s.takeDamage d).dieCount = s.dieCount + 1 := by rw [hstep]; rfl
    have h3 : (s.takeDamage d).entityHasAi = false := by rw [hstep]; rfl
    have h4 : (s.takeDamage d).maxHp = s.maxHp := by rw [hstep]; rfl
    have hstep2 : (s.takeDamage d).takeDamage 0 = { s.takeDamage d with hp := 0 } :=
      hgen (s.takeDamage d) h1 (h4 ▸ hmax) h3
    refine ⟨h1, h2, h3, ?_, ?_⟩
    · rw [hstep2]
    · rw [hstep2]
      exact h2

/-- A living orc used to instantiate the Fighter theorems. -/
def orcFighter : FighterState :=
  { maxHp := 10
    hp := 10
    defense := 0
    power := 3
    entityHasAi := true
    entityBlocks := true
    entityName := ("Orc")
    entityChar := ("o")
    entityColor := (63, 127, 63)
    entityIsPlayer := false
    renderOrder := RenderOrder.actor
    handlerGameOver := false
    log := []
    dieCount := 0 }

theorem fighter_hp_clamp_and_death_idempotent_witness :
    (0 ≤ orcFighter.maxHp ∧ orcFighter.entityHasAi = true ∧ orcFighter.hp ≤ 12) ∧
    (0 ≤ (orcFighter.hpSet 42).hp ∧ (orcFighter.hpSet 42).hp ≤ orcFighter.maxHp) ∧
    (orcFighter.takeDamage 12).hp = 0 ∧
    (orcFighter.takeDamage 12).dieCount = orcFighter.dieCount + 1 ∧
    (orcFighter.takeDamage 12).entityHasAi = false ∧
    ((orcFighter.takeDamage 12).takeDamage 0).hp = 0 ∧
    ((orcFighter.takeDamage 12).takeDamage 0).dieCount = orcFighter.dieCount + 1 :=
  ⟨⟨by decide, by decide, by decide⟩,
    fighter_hp_clamp_and_death_idempotent orcFighter 42 12
      (by decide) (by decide) (by decide)⟩

/-- The external game map interface consumed by MovementAction
(spec section 6; game_map.py is outside this core): bounds oracle,
walkability oracle, and the truthiness of get_blocking_entity_at_location. -/
structure GameMapI where
  inBounds : Int → Int → Bool
  walkable : Int → Int → Bool
  blockingEntityAt : Int → Int → Bool

/-- An entity position, mutated by entity.move. -/
structure EntityPos where
  x : Int
  y : Int
deriving DecidableEq, Repr

/-- MovementAction.perform (src/actions.py:168-179): destination is the
position plus the delta; check in_bounds, then tile walkability, then a
blocking entity, raising Impossible with a distinct message at the first
failing check; otherwise move the entity by (dx, dy) and return True.
Modelled from the spec where entity.py is absent: entity.move(dx, dy)
translates the position by the delta. A raised Impossible leaves the
position unchanged (second component). -/
def movementPerform (m : GameMapI) (st : EntityPos) (dx dy : Int) :
    Except String Bool × EntityPos :=
  let destX := st.x + dx
  let destY := st.y + dy
  if ¬ m.inBounds destX destY = true then
    (Except.error ("Destination is out of bounds."), st)
  else if ¬ m.walkable destX destY = true then
    (Except.error ("Destination is blocked by a tile."), st)
  else if m.blockingEntityAt destX destY = true then
    (Except.error ("Destination is blocked by an entity."), st)
  else
    (Except.ok true, { x := st.x + dx, y := st.y + dy })

/-- Claim C4: MovementAction.perform checks bounds, then walkability, then
blocking entities, in that order, failing with a distinct Impossible message
at the first failing check and leaving the position unchanged; when all three
checks pass it moves the entity by (dx, dy) and returns True. -/
theorem movement_perform_checks_in_order (m : GameMapI) (st : EntityPos) (dx dy : Int) :
    (m.inBounds (st.x + dx) (st.y + dy) = false →
      movementPerform m st dx dy = (Except.error ("Destination is out of bounds."), st)) ∧
    (m.inBounds (st.x + dx) (st.y + dy) = true →
      m.walkable (st.x + dx) (st.y + dy) = false →
      movementPerform m st dx dy = (Except.error ("Destination is blocked by a tile."), st)) ∧
    (m.inBounds (st.x + dx) (st.y + dy) = true →
      m.walkable (st.x + dx) (st.y + dy) = true →
      m.blockingEntityAt (st.x + dx) (st.y + dy) = true →
      movementPerform m st dx dy = (Except.error ("Destination is blocked by an entity."), st)) ∧
    (m.inBounds (st.x + dx) (st.y + dy) = true →
      m.walkable (st.x + dx) (st.y + dy) = true →
      m.blockingEntityAt (st.x + dx) (st.y + dy) = false →
      movementPerform m st dx dy = (Except.ok true, { x := st.x + dx, y := st.y + dy })) := by
  refine ⟨?_, ?_, ?_, ?_⟩
  · intro h1
    simp [movementPerform, h1]
  · intro h1 h2
    simp [movementPerform, h1, h2]
  · intro h1 h2 h3
    simp [movementPerform, h1, h2, h3]
  · intro h1 h2 h3
    simp [movementPerform, h1, h2, h3]

/-- A small concrete 10 by 10 map: a wall column at x = 5 and one blocking
entity at (2, 0). -/
def smallMap : GameMapI :=
  { inBounds := fun x y => decide (0 ≤ x ∧ x < 10 ∧ 0 ≤ y ∧ y < 10)
    walkable := fun x _ => decide (x ≠ 5)
    blockingEntityAt := fun x y => decide (x = 2 ∧ y = 0) }

theorem movement_perform_checks_in_order_witness :
    (smallMap.inBounds (0 + -1) (0 + 0) = false ∧
      movementPerform smallMap ⟨0, 0⟩ (-1) 0 =
        (Except.error ("Destination is out of bounds."), ⟨0, 0⟩)) ∧
    (smallMap.inBounds (4 + 1) (0 + 0) = true ∧
      smallMap.walkable (4 + 1) (0 + 0) = false ∧
      movementPerform smallMap ⟨4, 0⟩ 1 0 =
        (Except.error ("Destination is blocked by a tile."), ⟨4, 0⟩)) ∧
    (smallMap.inBounds (1 + 1) (0 + 0) = true ∧
      smallMap.walkable (1 + 1) (0 + 0) = true ∧
      smallMap.blockingEntityAt (1 + 1) (0 + 0) = true ∧
      movementPerform smallMap ⟨1, 0⟩ 1 0 =
        (Except.error ("Destination is blocked by an entity."), ⟨1, 0⟩)) ∧
    (movementPerform smallMap ⟨0, 0⟩ 1 1 = (Except.ok true, ⟨0 + 1, 0 + 1⟩)) :=
  ⟨⟨by decide, (movement_perform_checks_in_order smallMap ⟨0, 0⟩ (-1) 0).1 (by decide)⟩,
   ⟨by decide, by decide,
     (movement_perform_checks_in_order smallMap ⟨4, 0⟩ 1 0).2.1 (by decide) (by decide)⟩,
   ⟨by decide, by decide, by decide,
     (movement_perform_checks_in_order smallMap ⟨1, 0⟩ 1 0).2.2.1
       (by decide) (by decide) (by decide)⟩,
   (movement_perform_checks_in_order smallMap ⟨0, 0⟩ 1 1).2.2.2
     (by decide) (by decide) (by decide)⟩

/-- Python list.remove on a list of item identities: drop the first
occurrence, or raise ValueError (the error case) when absent. -/
def listRemove : List Nat → Nat → Except Unit (List Nat)
  | [], _ => Except.error ()
  | x :: xs, v => if x = v then Except.ok xs else (listRemove xs v).map (fun l => x :: l)

/-- Consumable.consume (src/components/consumable.py:35-42): when the parent
of the owning item is an Inventory, remove the item from its item list;
otherwise (the item lies on the map) do nothing. -/
def consume (parentIsInventory : Bool) (items : List Nat) (itemId : Nat) :
    Except Unit (List Nat) :=
  if parentIsInventory then listRemove items itemId else Except.ok items

theorem listRemove_mem : ∀ (l : List Nat) (i : Nat), i ∈ l →
    ∃ l1 l2, l = l1 ++ i :: l2 ∧ i ∉ l1 ∧ listRemove l i = Except.ok (l1 ++ l2) := by
  intro l i h
  induction l with
  | nil => cases h
  | cons x xs ih =>
    by_cases hx : x = i
    · subst hx
      exact ⟨[], xs, rfl, by simp, by simp [listRemove]⟩
    · have hmem : i ∈ xs := by
        cases h with
        | head => exact absurd rfl hx
        | tail _ h2 => exact h2
      obtain ⟨l1, l2, hdec, hnot, hrem⟩ := ih hmem
      refine ⟨x :: l1, l2, by rw [hdec]; rfl, ?_, ?_⟩
      · intro hcon
        rcases List.mem_cons.mp hcon with hc | hc
        · exact hx hc.symm
        · exact hnot hc
      · simp only [listRemove]
        rw [if_neg hx, hrem]
        rfl

/-- Claim C10: consume removes the owning item from the inventory item list
exactly when the parent is an Inventory (the first occurrence is dropped,
without error, whenever the item is present); when the parent is not an
Inventory the item list is untouched and no error is raised. -/
theorem consume_removes_iff_parent_inventory (p : Bool) (items : List Nat) (i : Nat) :
    (p = true → i ∈ items →
      ∃ l1 l2, items = l1 ++ i :: l2 ∧ i ∉ l1 ∧
        consume p items i = Except.ok (l1 ++ l2)) ∧
    (p = false → consume p items i = Except.ok items) := by
  constructor
  · intro hp hm
    subst hp
    obtain ⟨l1, l2, h1, h2, h3⟩ := listRemove_mem items i hm
    exact ⟨l1, l2, h1, h2, by simpa [consume] using h3⟩
  · intro hp
    subst hp
    rfl

theorem consume_removes_iff_parent_inventory_witness :
    ((true = true ∧ 5 ∈ [3, 5]) ∧ (false = false)) ∧
    (∃ l1 l2, [3, 5] = l1 ++ 5 :: l2 ∧ 5 ∉ l1 ∧
      consume true [3, 5] 5 = Except.ok (l1 ++ l2)) ∧
    consume false [3] 3 = Except.ok [3] :=
  ⟨⟨⟨rfl, by decide⟩, rfl⟩,
   (consume_removes_iff_parent_inventory true [3, 5] 5).1 rfl (by decide),
   (consume_removes_iff_parent_inventory false [3] 3).2 rfl⟩

/-- Outcome tag of a Consumable.activate call: normal return, a raised
exceptions.Impossible with its message, or a raised ValueError out of
list.remove. -/
inductive ActOut where
  | ok
  | impossible (msg : String)
  | pyError
deriving DecidableEq, Repr

/-- The consumer state after Fighter.heal plus the recovery message appended
to the engine message log (src/components/consumable.py:54-58). -/
def healMsg (f : FighterState) (amount : Int) (itemName : String) : FighterState :=
  { (f.heal amount).1 with
    log := (f.heal amount).1.log ++
      [(("You consume the " ++ itemName ++ ", and recover " ++
         toString (f.heal amount).2 ++ " HP!"), MsgColor.healthRecovered)] }

/-- HealingConsumable.activate (src/components/consumable.py:50-61):
heal the consumer; if the amount recovered is positive, log the recovery
message and consume the item (remove it from the owning inventory), else
raise Impossible and leave the item where it is. The result carries the
outcome tag, the consumer state and the owning inventory item list. -/
def healingActivate (amount : Int) (f : FighterState) (itemName : String)
    (parentIsInventory : Bool) (items : List Nat) (itemId : Nat) :
    ActOut × FighterState × List Nat :=
  if (f.heal amount).2 > 0 then
    match consume parentIsInventory items itemId with
    | Except.ok items2 => (ActOut.ok, healMsg f amount itemName, items2)
    | Except.error _ => (ActOut.pyError, healMsg f amount itemName, items)
  else (ActOut.impossible ("Your health is already full."), (f.heal amount).1, items)

/-- Claim C5: HealingConsumable.activate recovers exactly
min(amount, max_hp - hp): when that quantity is not positive (the consumer is
at full health) it raises Impossible and the item stays in its inventory with
the consumer unchanged; otherwise hp rises by exactly that quantity, the
recovery message naming the amount is logged, and the item is removed from
its owning inventory. -/
theorem healing_activate_contract (amount : Int) (f : FighterState) (itemName : String)
    (items : List Nat) (itemId : Nat)
    (hhp0 : 0 ≤ f.hp) (hhpm : f.hp ≤ f.maxHp) (hamt : 1 ≤ amount)
    (hmem : itemId ∈ items) :
    (min amount (f.maxHp - f.hp) ≤ 0 →
      healingActivate amount f itemName true items itemId =
        (ActOut.impossible ("Your health is already full."), f, items)) ∧
    (0 < min amount (f.maxHp - f.hp) →
      ∃ items2, listRemove items itemId = Except.ok items2 ∧
        healingActivate amount f itemName true items itemId =
          (ActOut.ok,
            { f with
              hp := f.hp + min amount (f.maxHp - f.hp)
              log := f.log ++
                [(("You consume the " ++ itemName ++ ", and recover " ++
                   toString (min amount (f.maxHp - f.hp)) ++ " HP!"),
                  MsgColor.healthRecovered)] },
            items2)) := by
  constructor
  · intro hrec
    have hfull : f.hp = f.maxHp := by omega
    have hheal : f.heal amount = (f, 0) := by
      unfold FighterState.heal
      rw [if_pos hfull]
    unfold healingActivate
    rw [hheal]
    norm_num
  · intro hrec
    have hne : ¬ f.hp = f.maxHp := by omega
    have hclampEq : clamp (min (f.hp + amount) f.maxHp) 0 f.maxHp =
        min (f.hp + amount) f.maxHp := by
      unfold clamp
      omega
    have hpos : ¬ (clamp (min (f.hp + amount) f.maxHp) 0 f.maxHp = 0 ∧
        f.entityHasAi = true) := by
      rw [hclampEq]
      intro hcon
      have := hcon.1
      omega
    have hheal : f.heal amount =
        ({ f with hp := min (f.hp + amount) f.maxHp },
          min (f.hp + amount) f.maxHp - f.hp) := by
      unfold FighterState.heal FighterState.hpSet
      rw [if_neg hne, if_neg hpos, hclampEq]
    have hrecEq : min (f.hp + amount) f.maxHp - f.hp = min amount (f.maxHp - f.hp) := by
      omega
    have hhpEq : min (f.hp + amount) f.maxHp = f.hp + min amount (f.maxHp - f.hp) := by
      omega
    obtain ⟨l1, l2, hdec, hnot, hrem⟩ := listRemove_mem items itemId hmem
    refine ⟨l1 ++ l2, hrem, ?_⟩
    have hcons : consume true items itemId = Except.ok (l1 ++ l2) := by
      simpa [consume] using hrem
    have h2 : (f.heal amount).2 = min amount (f.maxHp - f.hp) := by
      rw [hheal]
      exact hrecEq
    have h1 : (f.heal amount).1 = { f with hp := f.hp + min amount (f.maxHp - f.hp) } := by
      rw [hheal, hhpEq]
    unfold healingActivate healMsg
    rw [h1, h2, hcons, if_pos hrec]

/-- A wounded player at 6 of 10 hp, holding one potion (item 4). -/
def woundedPlayer : FighterState :=
  { maxHp := 10
    hp := 6
    defense := 1
    power := 5
    entityHasAi := false
    entityBlocks := true
    entityName := ("Player")
    entityChar := ("@")
    entityColor := (255, 255, 255)
    entityIsPlayer := true
    renderOrder := RenderOrder.actor
    handlerGameOver := false
    log := []
    dieCount := 0 }

theorem healing_activate_contract_witness :
    (0 ≤ woundedPlayer.hp ∧ woundedPlayer.hp ≤ woundedPlayer.maxHp ∧
      (1 : Int) ≤ 10 ∧ 4 ∈ [4] ∧
      0 < min 10 (woundedPlayer.maxHp - woundedPlayer.hp)) ∧
    (∃ items2, listRemove [4] 4 = Except.ok items2 ∧
      healingActivate 10 woundedPlayer ("Health Potion") true [4] 4 =
        (ActOut.ok,
          { woundedPlayer with
            hp := woundedPlayer.hp + min 10 (woundedPlayer.maxHp - woundedPlayer.hp)
            log := woundedPlayer.log ++
              [(("You consume the " ++ ("Health Potion") ++ ", and recover " ++
                 toString (min 10 (woundedPlayer.maxHp - woundedPlayer.hp)) ++ " HP!"),
                MsgColor.healthRecovered)] },
          items2)) :=
  ⟨⟨by decide, by decide, by decide, by decide, by decide⟩,
   (healing_activate_contract 10 woundedPlayer ("Health Potion") [4] 4
     (by decide) (by decide) (by decide) (by decide)).2 (by decide)⟩

/-- An actor as seen by LightningDamageConsumable.activate: identity
(Python object identity for the `actor is not consumer` test), position,
name and fighter component. -/
structure LActor where
  id : Nat
  x : Int
  y : Int
  name : String
  fighter : FighterState
deriving DecidableEq, Repr

/-- Modelled from the spec: entity.py is absent from src/ and
consumer.distance(x, y) is the Euclidean distance between actor centers.
Strict comparisons between Euclidean distances of integer points coincide
with strict comparisons of their squares, so distances are embedded as
squared distances throughout; the initial threshold maximum_range + 1.0 is
embedded as its square, valid whenever maximum_range + 1 is nonnegative. -/
def distSq (cx cy ax ay : Int) : Int := (ax - cx) * (ax - cx) + (ay - cy) * (ay - cy)

/-- Squared distance from the consumer to an actor. -/
def lightD (consumer a : LActor) : Int := distSq consumer.x consumer.y a.x a.y

/-- The selection loop of LightningDamageConsumable.activate
(src/components/consumable.py:75-86): fold over the map actors in scan
order, keeping the strictly closest visible actor other than the consumer,
starting from no target and the initial threshold. -/
def lightningScan (consumer : LActor) (visible : Int → Int → Bool) :
    List LActor → Option LActor → Int → Option LActor × Int
  | [], tgt, closest => (tgt, closest)
  | a :: rest, tgt, closest =>
    if ¬ a.id = consumer.id ∧ visible a.x a.y = true then
      if lightD consumer a < closest then
        lightningScan consumer visible rest (some a) (lightD consumer a)
      else lightningScan consumer visible rest tgt closest
    else lightningScan consumer visible rest tgt closest

/-- LightningDamageConsumable.activate (src/components/consumable.py:70-93):
scan for the closest visible other actor strictly below the threshold
maximum_range + 1.0 (squared here); when a target exists, apply take_damage
with the fixed damage and consume the item; otherwise raise Impossible and
leave the item unconsumed. The result carries the outcome tag, the actor
list and the owning inventory item list. -/
def lightningActivate (damage maximumRange : Int) (consumer : LActor)
    (actors : List LActor) (visible : Int → Int → Bool)
    (parentIsInventory : Bool) (items : List Nat) (itemId : Nat) :
    ActOut × List LActor × List Nat :=
  match (lightningScan consumer visible actors none
      ((maximumRange + 1) * (maximumRange + 1))).1 with
  | some t =>
    match consume parentIsInventory items itemId with
    | Except.ok items2 =>
        (ActOut.ok,
          actors.map (fun a =>
            if a.id = t.id then { a with fighter := a.fighter.takeDamage damage } else a),
          items2)
    | Except.error _ =>
        (ActOut.pyError,
          actors.map (fun a =>
            if a.id = t.id then { a with fighter := a.fighter.takeDamage damage } else a),
          items)
  | none => (ActOut.impossible ("No enemy is close enough to strike."), actors, items)

theorem lightningScan_spec (consumer : LActor) (visible : Int → Int → Bool) :
    ∀ (l : List LActor) (tgt : Option LActor) (c : Int),
    (lightningScan consumer visible l tgt c = (tgt, c) ∧
      ∀ a ∈ l, (¬ a.id = consumer.id ∧ visible a.x a.y = true) →
        ¬ lightD consumer a < c) ∨
    (∃ t pre post,
      lightningScan consumer visible l tgt c = (some t, lightD consumer t) ∧
      (¬ t.id = consumer.id ∧ visible t.x t.y = true) ∧
      lightD consumer t < c ∧
      l = pre ++ t :: post ∧
      (∀ a ∈ pre, (¬ a.id = consumer.id ∧ visible a.x a.y = true) →
        lightD consumer t < lightD consumer a) ∧
      (∀ a ∈ post, (¬ a.id = consumer.id ∧ visible a.x a.y = true) →
        ¬ lightD consumer a < lightD consumer t)) := by
  intro l
  induction l with
  | nil =>
    intro tgt c
    left
    exact ⟨rfl, by simp⟩
  | cons a rest ih =>
    intro tgt c
    by_cases hq : ¬ a.id = consumer.id ∧ visible a.x a.y = true
    · by_cases hd : lightD consumer a < c
      · have hscan : lightningScan consumer visible (a :: rest) tgt c =
            lightningScan consumer visible rest (some a) (lightD consumer a) := by
          rw [lightningScan, if_pos hq, if_pos hd]
        rcases ih (some a) (lightD consumer a) with
          ⟨heq, hall⟩ | ⟨t, pre, post, heq, hqt, hlt, hdec, hpre, hpost⟩
        · right
          exact ⟨a, [], rest, by rw [hscan, heq], hq, hd, rfl, by simp, hall⟩
        · right
          refine ⟨t, a :: pre, post, by rw [hscan, heq], hqt,
            lt_trans hlt hd, by rw [hdec]; rfl, ?_, hpost⟩
          intro b hb hqb
          rcases List.mem_cons.mp hb with hb1 | hb1
          · subst hb1
            exact hlt
          · exact hpre b hb1 hqb
      · have hscan : lightningScan consumer visible (a :: rest) tgt c =
            lightningScan consumer visible rest tgt c := by
          rw [lightningScan, if_pos hq, if_neg hd]
        rcases ih tgt c with
          ⟨heq, hall⟩ | ⟨t, pre, post, heq, hqt, hlt, hdec, hpre, hpost⟩
        · left
          refine ⟨by rw [hscan, heq], ?_⟩
          intro b hb hqb
          rcases List.mem_cons.mp hb with hb1 | hb1
          · subst hb1
            exact hd
          · exact hall b hb1 hqb
        · right
          refine ⟨t, a :: pre, post, by rw [hscan, heq], hqt, hlt, by rw [hdec]; rfl, ?_, hpost⟩
          intro b hb hqb
          rcases List.mem_cons.mp hb with hb1 | hb1
          · subst hb1
            omega
          · exact hpre b hb1 hqb
    · have hscan : lightningScan consumer visible (a :: rest) tgt c =
          lightningScan consumer visible rest tgt c := by
        rw [lightningScan, if_neg hq]
      rcases ih tgt c with
        ⟨heq, hall⟩ | ⟨t, pre, post, heq, hqt, hlt, hdec, hpre, hpost⟩
      · left
        refine ⟨by rw [hscan, heq], ?_⟩
        intro b hb hqb
        rcases List.mem_cons.mp hb with hb1 | hb1
        · subst hb1
          exact absurd hqb hq
        · exact hall b hb1 hqb
      · right
        refine ⟨t, a :: pre, post, by rw [hscan, heq], hqt, hlt, by rw [hdec]; rfl, ?_, hpost⟩
        intro b hb hqb
        rcases List.mem_cons.mp hb with hb1 | hb1
        · subst hb1
          exact absurd hqb hq
        · exact hpre b hb1 hqb

/-- Claim C6: among the map actors other than the consumer standing on
visible tiles, LightningDamageConsumable.activate targets the one at minimal
squared Euclidean distance strictly below (maximum_range + 1) squared, so a
target at exactly maximum_range qualifies (last conjunct); ties at the
minimum go to the first actor in scan order (every qualifying actor before
the target is strictly farther); on success the target takes exactly
`damage` via take_damage and the item is consumed; with no qualifying target
it raises Impossible and the item is not consumed. -/
theorem lightning_targets_nearest_visible (damage maximumRange : Int)
    (consumer : LActor) (actors : List LActor) (visible : Int → Int → Bool)
    (items : List Nat) (itemId : Nat)
    (hrange : 0 ≤ maximumRange) (hmem : itemId ∈ items) :
    ((lightningScan consumer visible actors none
        ((maximumRange + 1) * (maximumRange + 1))).1 = none →
      lightningActivate damage maximumRange consumer actors visible true items itemId =
        (ActOut.impossible ("No enemy is close enough to strike."), actors, items) ∧
      ∀ a ∈ actors, (¬ a.id = consumer.id ∧ visible a.x a.y = true) →
        ¬ lightD consumer a < (maximumRange + 1) * (maximumRange + 1)) ∧
    (∀ t, (lightningScan consumer visible actors none
        ((maximumRange + 1) * (maximumRange + 1))).1 = some t →
      (¬ t.id = consumer.id ∧ visible t.x t.y = true) ∧
      lightD consumer t < (maximumRange + 1) * (maximumRange + 1) ∧
      (∀ a ∈ actors, (¬ a.id = consumer.id ∧ visible a.x a.y = true) →
        lightD consumer t ≤ lightD consumer a) ∧
      (∃ pre post, actors = pre ++ t :: post ∧
        ∀ a ∈ pre, (¬ a.id = consumer.id ∧ visible a.x a.y = true) →
          lightD consumer t < lightD consumer a) ∧
      (∃ items2, listRemove items itemId = Except.ok items2 ∧
        lightningActivate damage maximumRange consumer actors visible true items itemId =
          (ActOut.ok,
            actors.map (fun a =>
              if a.id = t.id then { a with fighter := a.fighter.takeDamage damage } else a),
            items2))) ∧
    maximumRange * maximumRange < (maximumRange + 1) * (maximumRange + 1) := by
  obtain ⟨l1, l2, hdec0, hnot0, hrem⟩ := listRemove_mem items itemId hmem
  have hcons : consume true items itemId = Except.ok (l1 ++ l2) := by
    simpa [consume] using hrem
  rcases lightningScan_spec consumer visible actors none
      ((maximumRange + 1) * (maximumRange + 1)) with
    ⟨heq, hall⟩ | ⟨t0, pre, post, heq, hqt, hlt, hdecomp, hpre, hpost⟩
  · refine ⟨?_, ?_, by nlinarith⟩
    · intro _
      constructor
      · unfold lightningActivate
        rw [heq]
      · exact hall
    · intro t ht
      rw [heq] at ht
      exact absurd ht (by simp)
  · refine ⟨?_, ?_, by nlinarith⟩
    · intro hnone
      rw [heq] at hnone
      exact absurd hnone (by simp)
    · intro t ht
      rw [heq] at ht
      have htt : t0 = t := Option.some.inj ht
      subst htt
      refine ⟨hqt, hlt, ?_, ⟨pre, post, hdecomp, hpre⟩, ⟨l1 ++ l2, hrem, ?_⟩⟩
      · intro a ha hqa
        rw [hdecomp] at ha
        rcases List.mem_append.mp ha with ha1 | ha2
        · exact le_of_lt (hpre a ha1 hqa)
        · rcases List.mem_cons.mp ha2 with ha3 | ha3
          · subst ha3
            exact le_refl _
          · exact le_of_not_lt (hpost a ha3 hqa)
      · unfold lightningActivate
        rw [heq, hcons]

/-- A plain fighter used for the concrete lightning actors. -/
def plainFighter : FighterState :=
  { maxHp := 16
    hp := 16
    defense := 1
    power := 4
    entityHasAi := true
    entityBlocks := true
    entityName := ("Orc")
    entityChar := ("o")
    entityColor := (63, 127, 63)
    entityIsPlayer := false
    renderOrder := RenderOrder.actor
    handlerGameOver := false
    log := []
    dieCount := 0 }

/-- The consumer of the lightning scroll, at the origin. -/
def boltConsumer : LActor := ⟨0, 0, 0, ("Player"), plainFighter⟩

/-- A visible enemy at distance 3 from the consumer. -/
def boltNear : LActor := ⟨1, 3, 0, ("Orc A"), plainFighter⟩

/-- A visible enemy at distance 5 from the consumer. -/
def boltFar : LActor := ⟨2, 5, 0, ("Orc B"), plainFighter⟩

/-- Everything is visible in the concrete lightning scenario. -/
def boltVis : Int → Int → Bool := fun _ _ => true

theorem lightning_targets_nearest_visible_witness :
    ((0 : Int) ≤ 6 ∧ 7 ∈ [7]) ∧
    lightD boltConsumer boltNear < (6 + 1) * (6 + 1) ∧
    (∃ items2, listRemove [7] 7 = Except.ok items2 ∧
      lightningActivate 20 6 boltConsumer [boltNear, boltFar] boltVis true [7] 7 =
        (ActOut.ok,
          [boltNear, boltFar].map (fun a =>
            if a.id = boltNear.id then
              { a with fighter := a.fighter.takeDamage 20 } else a),
          items2)) := by
  have h := (lightning_targets_nearest_visible 20 6 boltConsumer [boltNear, boltFar]
    boltVis [7] 7 (by decide) (by decide)).2.1 boltNear (by decide)
  exact ⟨⟨by decide, by decide⟩, h.2.1, h.2.2.2.2⟩

/-- The keys HistoryViewer.ev_keydown distinguishes: the four cursor keys of
CURSOR_Y_KEYS, Home, End, and any other key. -/
inductive HKey where
  | up
  | down
  | pageUp
  | pageDown
  | home
  | endKey
  | other
deriving DecidableEq, Repr

/-- CURSOR_Y_KEYS (src/input_handlers.py:410-415). -/
def cursorYKeys : HKey → Option Int
  | HKey.up => some (-1)
  | HKey.down => some 1
  | HKey.pageUp => some (-10)
  | HKey.pageDown => some 10
  | _ => none

/-- HistoryViewer state: the frozen log length, the cursor, and whether the
handler returned control to MainGameEventHandler. -/
structure HistoryState where
  logLength : Int
  cursor : Int
  returnedToMain : Bool
deriving DecidableEq, Repr

/-- HistoryViewer.ev_keydown (src/input_handlers.py:460-483): wrap from the
top edge to the bottom on a negative adjust at cursor 0, from the bottom edge
to the top on a positive adjust at cursor log_length - 1, otherwise clamp
cursor + adjust (via the positional call clamp(0, cursor + adjust,
log_length - 1)); Home and End jump to the edges; any other key returns to
the main game handler. -/
def historyKeydown (st : HistoryState) (k : HKey) : HistoryState :=
  match cursorYKeys k with
  | some adjust =>
    if adjust < 0 ∧ st.cursor = 0 then { st with cursor := st.logLength - 1 }
    else if adjust > 0 ∧ st.cursor = st.logLength - 1 then { st with cursor := 0 }
    else { st with cursor := clamp 0 (st.cursor + adjust) (st.logLength - 1) }
  | none =>
    if k = HKey.home then { st with cursor := 0 }
    else if k = HKey.endKey then { st with cursor := st.logLength - 1 }
    else { st with returnedToMain := true }

/-- Claim C8: HistoryViewer cursor movement wraps only at the extremes
(negative adjust at 0 wraps to log_length - 1, positive adjust at
log_length - 1 wraps to 0), every other cursor-key press clamps
cursor + adjust into [0, log_length - 1], Home jumps to 0, End jumps to
log_length - 1, and any other key returns to the main game handler leaving
the cursor untouched. -/
theorem history_viewer_cursor (st : HistoryState) (k : HKey) (adjust : Int)
    (hlen : 1 ≤ st.logLength) :
    (cursorYKeys k = some adjust → adjust < 0 → st.cursor = 0 →
      (historyKeydown st k).cursor = st.logLength - 1) ∧
    (cursorYKeys k = some adjust → adjust > 0 → st.cursor = st.logLength - 1 →
      (historyKeydown st k).cursor = 0) ∧
    (cursorYKeys k = some adjust → ¬ (adjust < 0 ∧ st.cursor = 0) →
      ¬ (adjust > 0 ∧ st.cursor = st.logLength - 1) →
      (historyKeydown st k).cursor =
        max 0 (min (st.cursor + adjust) (st.logLength - 1))) ∧
    (k = HKey.home → (historyKeydown st k).cursor = 0) ∧
    (k = HKey.endKey → (historyKeydown st k).cursor = st.logLength - 1) ∧
    (cursorYKeys k = none → ¬ k = HKey.home → ¬ k = HKey.endKey →
      (historyKeydown st k).returnedToMain = true ∧
      (historyKeydown st k).cursor = st.cursor) := by
  refine ⟨?_, ?_, ?_, ?_, ?_, ?_⟩
  · intro hck h1 h2
    simp [historyKeydown, hck, h1, h2]
  · intro hck h1 h2
    simp only [historyKeydown, hck]
    split_ifs with h3 h4
    · exact absurd h3.1 (by omega)
    · rfl
    · exact absurd ⟨h1, h2⟩ h4
  · intro hck h1 h2
    simp only [historyKeydown, hck, if_neg h1, if_neg h2, clamp]
    omega
  · intro hk
    subst hk
    simp [historyKeydown, cursorYKeys]
  · intro hk
    subst hk
    simp [historyKeydown, cursorYKeys]
  · intro hck h1 h2
    simp [historyKeydown, hck, h1, h2]

/-- A history log of five messages with the cursor on the last one. -/
def historyFive : HistoryState := { logLength := 5, cursor := 4, returnedToMain := false }

theorem history_viewer_cursor_witness :
    (1 ≤ historyFive.logLength ∧
      cursorYKeys HKey.down = some 1 ∧
      historyFive.cursor = historyFive.logLength - 1 ∧
      cursorYKeys HKey.pageUp = some (-10) ∧
      ¬ ((-10 : Int) < 0 ∧ historyFive.cursor = 0) ∧
      ¬ ((-10 : Int) > 0 ∧ historyFive.cursor = historyFive.logLength - 1)) ∧
    (historyKeydown historyFive HKey.down).cursor = 0 ∧
    (historyKeydown historyFive HKey.pageUp).cursor =
      max 0 (min (historyFive.cursor + -10) (historyFive.logLength - 1)) ∧
    (historyKeydown historyFive HKey.other).returnedToMain = true :=
  ⟨⟨by decide, by decide, by decide, by decide, by decide, by decide⟩,
   (history_viewer_cursor historyFive HKey.down 1 (by decide)).2.1
     (by decide) (by decide) (by decide),
   (history_viewer_cursor historyFive HKey.pageUp (-10) (by decide)).2.2.1
     (by decide) (by decide) (by decide),
   ((history_viewer_cursor historyFive HKey.other 0 (by decide)).2.2.2.2.2
     (by decide) (by decide) (by decide)).1⟩

/-- tcod.event.KMOD_LSHIFT. -/
def KMOD_LSHIFT : Nat := 1

/-- tcod.event.KMOD_RSHIFT. -/
def KMOD_RSHIFT : Nat := 2

/-- tcod.event.KMOD_LCTRL. -/
def KMOD_LCTRL : Nat := 64

/-- tcod.event.KMOD_RCTRL. -/
def KMOD_RCTRL : Nat := 128

/-- tcod.event.KMOD_LALT. -/
def KMOD_LALT : Nat := 256

/-- tcod.event.KMOD_RALT. -/
def KMOD_RALT : Nat := 512

/-- The modifier value after the shift check of SelectIndexHandler.ev_keydown
(src/input_handlers.py:296-303): the condition tests the constant mask
KMOD_LSHIFT | KMOD_RSHIFT for truthiness, not the event modifier state. -/
def modifierAfterShift : Int :=
  if ¬ (KMOD_LSHIFT ||| KMOD_RSHIFT) = 0 then 1 * 5 else 1

/-- The modifier value after the ctrl check, again testing a constant mask. -/
def modifierAfterCtrl : Int :=
  if ¬ (KMOD_LCTRL ||| KMOD_RCTRL) = 0 then modifierAfterShift * 10
  else modifierAfterShift

/-- The modifier value after the alt check, again testing a constant mask. -/
def modifierAfterAlt : Int :=
  if ¬ (KMOD_LALT ||| KMOD_RALT) = 0 then modifierAfterCtrl * 20
  else modifierAfterCtrl

/-- The effective speed multiplier: the three constant-mask checks run only
when event.mod is truthy (nonzero). -/
def selectIndexModifier (emod : Nat) : Int :=
  if ¬ emod = 0 then modifierAfterAlt else 1

/-- The cursor update of SelectIndexHandler.ev_keydown for a movement key
(src/input_handlers.py:296-313): move by the key delta scaled by the
modifier, then clamp each coordinate to the map bounds. -/
def selectIndexMove (x y : Int) (emod : Nat) (dx dy : Int) (w h : Int) : Int × Int :=
  (clamp (x + dx * selectIndexModifier emod) 0 (w - 1),
   clamp (y + dy * selectIndexModifier emod) 0 (h - 1))

/-- Claim C9: with event.mod zero the cursor moves by exactly the key delta
(then clamped); with ANY nonzero event.mod the effective multiplier is
5 * 10 * 20 = 1000, whichever modifier is held, because each of the three
checks tests a constant nonzero mask; and after every move each coordinate
is clamped into [0, width - 1] and [0, height - 1]. -/
theorem select_index_cursor (x y : Int) (emod : Nat) (dx dy w h : Int)
    (hw : 1 ≤ w) (hh : 1 ≤ h) :
    (emod = 0 → selectIndexMove x y emod dx dy w h =
      (clamp (x + dx) 0 (w - 1), clamp (y + dy) 0 (h - 1))) ∧
    (¬ emod = 0 → selectIndexMove x y emod dx dy w h =
      (clamp (x + dx * 1000) 0 (w - 1), clamp (y + dy * 1000) 0 (h - 1))) ∧
    (0 ≤ (selectIndexMove x y emod dx dy w h).1 ∧
      (selectIndexMove x y emod dx dy w h).1 ≤ w - 1 ∧
      0 ≤ (selectIndexMove x y emod dx dy w h).2 ∧
      (selectIndexMove x y emod dx dy w h).2 ≤ h - 1) := by
  have hmod : modifierAfterAlt = 1000 := by decide
  refine ⟨?_, ?_, ?_⟩
  · intro h0
    simp [selectIndexMove, selectIndexModifier, h0]
  · intro h0
    simp [selectIndexMove, selectIndexModifier, h0, hmod]
  · unfold selectIndexMove clamp
    constructor
    · omega
    constructor
    · omega
    constructor
    · omega
    · omega

theorem select_index_cursor_witness :
    ((1 : Int) ≤ 80 ∧ (1 : Int) ≤ 50 ∧ (0 : Nat) = 0 ∧ ¬ (1 : Nat) = 0) ∧
    selectIndexMove 10 10 0 1 (-1) 80 50 =
      (clamp (10 + 1) 0 (80 - 1), clamp (10 + -1) 0 (50 - 1)) ∧
    selectIndexMove 10 10 1 1 (-1) 80 50 =
      (clamp (10 + 1 * 1000) 0 (80 - 1), clamp (10 + -1 * 1000) 0 (50 - 1)) ∧
    (0 ≤ (selectIndexMove 10 10 1 1 (-1) 80 50).1 ∧
      (selectIndexMove 10 10 1 1 (-1) 80 50).1 ≤ 80 - 1 ∧
      0 ≤ (selectIndexMove 10 10 1 1 (-1) 80 50).2 ∧
      (selectIndexMove 10 10 1 1 (-1) 80 50).2 ≤ 50 - 1) :=
  ⟨⟨by decide, by decide, rfl, by decide⟩,
   (select_index_cursor 10 10 0 1 (-1) 80 50 (by decide) (by decide)).1 rfl,
   (select_index_cursor 10 10 1 1 (-1) 80 50 (by decide) (by decide)).2.1 (by decide),
   (select_index_cursor 10 10 1 1 (-1) 80 50 (by decide) (by decide)).2.2⟩
